import Mathlib

/-!
Verification of the spherical / rhumb-line geodesy library
`src/Visualisierung/javascript/geo/latlon-spherical.js`.

The JavaScript source computes with IEEE-754 doubles; this development uses a
shallow embedding over the real numbers `ℝ`.  Conventions of the embedding:

* `Number.prototype.toRadians` / `toDegrees` become `toRadians` / `toDegrees`.
* `Math.atan2 y x` becomes `atan2 y x := Complex.arg ⟨x, y⟩` (same branch cut,
  range `(-π, π]`, `atan2 0 0 = 0`, matching JavaScript on real inputs).
* The JavaScript remainder operator `%` (sign of the dividend, truncated
  division) becomes `jsMod`.
* Lean's total real functions stand in for the partial IEEE ones: `x / 0 = 0`,
  `Real.sqrt` of a negative number is `0`, `Real.arcsin` / `Real.arccos` clamp
  their argument to `[-1, 1]`.  Where a claim is *about* the IEEE `NaN`
  behaviour (the `intersection` `isNaN` guard, the `0/0` interpolation weights
  of `intermediatePointTo`), a second, NaN-tracking embedding over
  `Option ℝ` is used; see `JsNum` below.
-/

open scoped Real Classical

noncomputable section

/-- Embedding of `Number.prototype.toRadians`: `this * Math.PI / 180`. -/
def toRadians (d : ℝ) : ℝ := d * Real.pi / 180

/-- Embedding of `Number.prototype.toDegrees`: `this * 180 / Math.PI`. -/
def toDegrees (r : ℝ) : ℝ := r * 180 / Real.pi

/-- JavaScript truncation toward zero (used by the `%` operator). -/
def jsTrunc (x : ℝ) : ℝ := if 0 ≤ x then (⌊x⌋ : ℝ) else (⌈x⌉ : ℝ)

/-- The JavaScript remainder operator `a % n` on finite doubles:
`a - n * trunc (a / n)`, remainder carrying the sign of the dividend. -/
def jsMod (a n : ℝ) : ℝ := a - n * jsTrunc (a / n)

/-- Embedding of `Math.atan2 y x`, realised as the argument of the complex number `x + y i`.
Range `(-π, π]`; `atan2 0 0 = 0` as in JavaScript. -/
def atan2 (y x : ℝ) : ℝ := Complex.arg ⟨x, y⟩

/-- The longitude normalisation used throughout the source:
`(deg + 540) % 360 - 180`. -/
def normLon (deg : ℝ) : ℝ := jsMod (deg + 540) 360 - 180

/-- A point on the sphere: the `LatLon` value type of the source, fields `lat`
and `lon` in degrees, stored as given (no validation, no normalisation). -/
structure LatLon where
  lat : ℝ
  lon : ℝ

/-- Embedding of `LatLon.prototype.distanceTo` (haversine formula); `radius` is the explicit
value of the optional parameter (default `6371e3` in the source). -/
def LatLon.distanceTo (p : LatLon) (point : LatLon) (radius : ℝ) : ℝ :=
  let R := radius
  let φ1 := toRadians p.lat
  let φ2 := toRadians point.lat
  let Δφ := φ2 - φ1
  let ΔL := toRadians point.lon - toRadians p.lon
  let a := Real.sin (Δφ/2) * Real.sin (Δφ/2)
         + Real.cos φ1 * Real.cos φ2 * Real.sin (ΔL/2) * Real.sin (ΔL/2)
  let c := 2 * atan2 (Real.sqrt a) (Real.sqrt (1 - a))
  R * c

/-- Embedding of `LatLon.prototype.bearingTo`: initial bearing in degrees, normalised to
`[0, 360)` by `(θ.toDegrees() + 360) % 360`. -/
def LatLon.bearingTo (p : LatLon) (point : LatLon) : ℝ :=
  let φ1 := toRadians p.lat
  let φ2 := toRadians point.lat
  let ΔL := toRadians (point.lon - p.lon)
  let y := Real.sin ΔL * Real.cos φ2
  let x := Real.cos φ1 * Real.sin φ2 - Real.sin φ1 * Real.cos φ2 * Real.cos ΔL
  let θ := atan2 y x
  jsMod (toDegrees θ + 360) 360

/-- Embedding of `LatLon.prototype.finalBearingTo`: `(point.bearingTo(this) + 180) % 360`. -/
def LatLon.finalBearingTo (p : LatLon) (point : LatLon) : ℝ :=
  jsMod (point.bearingTo p + 180) 360

/-- Embedding of `LatLon.prototype.midpointTo` (great-circle midpoint, vector formula). -/
def LatLon.midpointTo (p : LatLon) (point : LatLon) : LatLon :=
  let φ1 := toRadians p.lat
  let lam1 := toRadians p.lon
  let φ2 := toRadians point.lat
  let ΔL := toRadians (point.lon - p.lon)
  let Bx := Real.cos φ2 * Real.cos ΔL
  let By := Real.cos φ2 * Real.sin ΔL
  let x := Real.sqrt ((Real.cos φ1 + Bx) * (Real.cos φ1 + Bx) + By * By)
  let y := Real.sin φ1 + Real.sin φ2
  let φ3 := atan2 y x
  let lam3 := lam1 + atan2 By (Real.cos φ1 + Bx)
  ⟨toDegrees φ3, normLon (toDegrees lam3)⟩

/-- Embedding of `LatLon.prototype.intermediatePointTo` (slerp along the
great circle) over the reals.  Lean's total conventions collapse the
program's `0 / 0` (IEEE `NaN`) to `0` here: at coincident or antipodal
points the interpolation weights are `0 / 0` and the program returns `NaN`
coordinates, which this embedding cannot express — range statements about
the returned longitude are therefore made about `intermediatePointToNan`,
the NaN-faithful embedding, not about this one. -/
def LatLon.intermediatePointTo (p : LatLon) (point : LatLon) (fraction : ℝ) :
    LatLon :=
  let φ1 := toRadians p.lat
  let lam1 := toRadians p.lon
  let φ2 := toRadians point.lat
  let lam2 := toRadians point.lon
  let Δφ := φ2 - φ1
  let ΔL := lam2 - lam1
  let a := Real.sin (Δφ/2) * Real.sin (Δφ/2)
         + Real.cos φ1 * Real.cos φ2 * Real.sin (ΔL/2) * Real.sin (ΔL/2)
  let δ := 2 * atan2 (Real.sqrt a) (Real.sqrt (1 - a))
  let A := Real.sin ((1 - fraction) * δ) / Real.sin δ
  let B := Real.sin (fraction * δ) / Real.sin δ
  let x := A * Real.cos φ1 * Real.cos lam1 + B * Real.cos φ2 * Real.cos lam2
  let y := A * Real.cos φ1 * Real.sin lam1 + B * Real.cos φ2 * Real.sin lam2
  let z := A * Real.sin φ1 + B * Real.sin φ2
  let φ3 := atan2 z (Real.sqrt (x*x + y*y))
  let lam3 := atan2 y x
  ⟨toDegrees φ3, normLon (toDegrees lam3)⟩

/-- Embedding of `LatLon.prototype.destinationPoint` (forward direct geodesic). -/
def LatLon.destinationPoint (p : LatLon) (distance bearing radius : ℝ) :
    LatLon :=
  let δ := distance / radius
  let θ := toRadians bearing
  let φ1 := toRadians p.lat
  let lam1 := toRadians p.lon
  let φ2 := Real.arcsin (Real.sin φ1 * Real.cos δ
                        + Real.cos φ1 * Real.sin δ * Real.cos θ)
  let x := Real.cos δ - Real.sin φ1 * Real.sin φ2
  let y := Real.sin θ * Real.sin δ * Real.cos φ1
  let lam2 := lam1 + atan2 y x
  ⟨toDegrees φ2, normLon (toDegrees lam2)⟩

/-- Embedding of `LatLon.prototype.maxLatitude` (Clairaut's formula):
`acos (|sin θ * cos φ|)` converted back to degrees. -/
def LatLon.maxLatitude (p : LatLon) (bearing : ℝ) : ℝ :=
  toDegrees (Real.arccos |Real.sin (toRadians bearing)
                          * Real.cos (toRadians p.lat)|)

/-- The `x` of `LatLon.crossingParallels`:
`sin φ1 * cos φ2 * cos φ * sin ΔL`. -/
def cpX (point1 point2 : LatLon) (latitude : ℝ) : ℝ :=
  let φ := toRadians latitude
  let φ1 := toRadians point1.lat
  let φ2 := toRadians point2.lat
  let ΔL := toRadians point2.lon - toRadians point1.lon
  Real.sin φ1 * Real.cos φ2 * Real.cos φ * Real.sin ΔL

/-- The `y` of `LatLon.crossingParallels`:
`sin φ1 * cos φ2 * cos φ * cos ΔL - cos φ1 * sin φ2 * cos φ`. -/
def cpY (point1 point2 : LatLon) (latitude : ℝ) : ℝ :=
  let φ := toRadians latitude
  let φ1 := toRadians point1.lat
  let φ2 := toRadians point2.lat
  let ΔL := toRadians point2.lon - toRadians point1.lon
  Real.sin φ1 * Real.cos φ2 * Real.cos φ * Real.cos ΔL
    - Real.cos φ1 * Real.sin φ2 * Real.cos φ

/-- The `z` of `LatLon.crossingParallels`:
`cos φ1 * cos φ2 * sin φ * sin ΔL`. -/
def cpZ (point1 point2 : LatLon) (latitude : ℝ) : ℝ :=
  let φ := toRadians latitude
  let φ1 := toRadians point1.lat
  let φ2 := toRadians point2.lat
  let ΔL := toRadians point2.lon - toRadians point1.lon
  Real.cos φ1 * Real.cos φ2 * Real.sin φ * Real.sin ΔL

/-- Embedding of `LatLon.crossingParallels` over the reals: the pair of
longitudes at which the great circle through the two points crosses the
given parallel, or `none` (`null`) when `z² > x² + y²`.  The source performs
no `instanceof` validation here (see `crossingParallelsJS`).  When
`x = y = z = 0` the program computes `acos (0 / 0)` and returns `NaN`
longitudes; Lean's `0 / 0 = 0` collapses that path, so range statements
about the returned longitudes are made about `crossingParallelsNan`, the
NaN-faithful embedding, not about this one. -/
def LatLon.crossingParallels (point1 point2 : LatLon) (latitude : ℝ) :
    Option (ℝ × ℝ) :=
  let lam1 := toRadians point1.lon
  let x := cpX point1 point2 latitude
  let y := cpY point1 point2 latitude
  let z := cpZ point1 point2 latitude
  if z * z > x * x + y * y then none
  else
    let lamM := atan2 (-y) x
    let ΔLi := Real.arccos (z / Real.sqrt (x * x + y * y))
    some (normLon (toDegrees (lam1 + lamM - ΔLi)),
          normLon (toDegrees (lam1 + lamM + ΔLi)))

/-- The model of `θa = Math.acos (num / den); if (isNaN(θa)) θa = 0;` in the
real-valued embedding of `LatLon.intersection`: in IEEE arithmetic the `acos`
yields `NaN` exactly when the denominator is `0` (`0/0` or `±Infinity`) or the
quotient falls outside `[-1, 1]`, and the guard then substitutes `0`. -/
def jsAcosGuarded (num den : ℝ) : ℝ :=
  if den = 0 ∨ 1 < |num / den| then 0 else Real.arccos (num / den)

/-- The `δ12` of `LatLon.intersection`: haversine angular distance between the
two start points, via `2 * asin (sqrt …)`. -/
def interδ12 (p1 p2 : LatLon) : ℝ :=
  let φ1 := toRadians p1.lat
  let φ2 := toRadians p2.lat
  let Δφ := φ2 - φ1
  let ΔL := toRadians p2.lon - toRadians p1.lon
  2 * Real.arcsin (Real.sqrt (Real.sin (Δφ/2) * Real.sin (Δφ/2)
      + Real.cos φ1 * Real.cos φ2 * Real.sin (ΔL/2) * Real.sin (ΔL/2)))

/-- The guarded bearing angle `θa` of `LatLon.intersection`. -/
def interθa (p1 p2 : LatLon) : ℝ :=
  let φ1 := toRadians p1.lat
  let φ2 := toRadians p2.lat
  let δ12 := interδ12 p1 p2
  jsAcosGuarded (Real.sin φ2 - Real.sin φ1 * Real.cos δ12)
    (Real.sin δ12 * Real.cos φ1)

/-- The unguarded bearing angle `θb` of `LatLon.intersection` (the source has
no `isNaN` guard on this one; Lean's clamping `arccos` and `x / 0 = 0` stand in
for the IEEE `NaN` — see `intersectionNan` for the NaN-tracking embedding). -/
def interθb (p1 p2 : LatLon) : ℝ :=
  let φ1 := toRadians p1.lat
  let φ2 := toRadians p2.lat
  let δ12 := interδ12 p1 p2
  Real.arccos ((Real.sin φ1 - Real.sin φ2 * Real.cos δ12)
    / (Real.sin δ12 * Real.cos φ2))

/-- The initial bearing `θ12` of `LatLon.intersection`:
`sin (λ2-λ1) > 0 ? θa : 2π - θa`. -/
def interθ12 (p1 p2 : LatLon) : ℝ :=
  if Real.sin (toRadians p2.lon - toRadians p1.lon) > 0 then interθa p1 p2
  else 2 * Real.pi - interθa p1 p2

/-- The bearing `θ21` of `LatLon.intersection`:
`sin (λ2-λ1) > 0 ? 2π - θb : θb`. -/
def interθ21 (p1 p2 : LatLon) : ℝ :=
  if Real.sin (toRadians p2.lon - toRadians p1.lon) > 0 then
    2 * Real.pi - interθb p1 p2
  else interθb p1 p2

/-- The included angle `α1` (angle 2-1-3) of `LatLon.intersection`:
`(θ13 - θ12 + π) % 2π - π`. -/
def interα1 (p1 : LatLon) (brng1 : ℝ) (p2 : LatLon) : ℝ :=
  jsMod (toRadians brng1 - interθ12 p1 p2 + Real.pi) (2 * Real.pi) - Real.pi

/-- The included angle `α2` (angle 1-2-3) of `LatLon.intersection`:
`(θ21 - θ23 + π) % 2π - π`. -/
def interα2 (p1 p2 : LatLon) (brng2 : ℝ) : ℝ :=
  jsMod (interθ21 p1 p2 - toRadians brng2 + Real.pi) (2 * Real.pi) - Real.pi

/-- Embedding of `LatLon.intersection` over the reals: `none` models the
source's `null` returns, in source order (`δ12 == 0`; both included angles
with zero sine; product of the sines negative).  On inputs where the
program's unguarded `θb` becomes `NaN` (see `interθb`), the program returns
a `NaN`-coordinate point while this embedding returns real coordinates;
range statements about the returned longitude are therefore made about
`intersectionNan`, the NaN-faithful embedding, while the `null`-branch
structure proved of this embedding is unaffected. -/
def LatLon.intersection (p1 : LatLon) (brng1 : ℝ) (p2 : LatLon) (brng2 : ℝ) :
    Option LatLon :=
  let φ1 := toRadians p1.lat
  let lam1 := toRadians p1.lon
  let θ13 := toRadians brng1
  let δ12 := interδ12 p1 p2
  if δ12 = 0 then none
  else if Real.sin (interα1 p1 brng1 p2) = 0
       ∧ Real.sin (interα2 p1 p2 brng2) = 0 then none
  else if Real.sin (interα1 p1 brng1 p2) * Real.sin (interα2 p1 p2 brng2) < 0
    then none
  else
    let α1 := interα1 p1 brng1 p2
    let α2 := interα2 p1 p2 brng2
    let α3 := Real.arccos (-Real.cos α1 * Real.cos α2
                          + Real.sin α1 * Real.sin α2 * Real.cos δ12)
    let δ13 := atan2 (Real.sin δ12 * Real.sin α1 * Real.sin α2)
                     (Real.cos α2 + Real.cos α1 * Real.cos α3)
    let φ3 := Real.arcsin (Real.sin φ1 * Real.cos δ13
                          + Real.cos φ1 * Real.sin δ13 * Real.cos θ13)
    let ΔL13 := atan2 (Real.sin θ13 * Real.sin δ13 * Real.cos φ1)
                      (Real.cos δ13 - Real.sin φ1 * Real.sin φ3)
    some ⟨toDegrees φ3, normLon (toDegrees (lam1 + ΔL13))⟩

/-- Embedding of `LatLon.prototype.crossTrackDistanceTo` (signed distance to the great
circle through `pathStart` → `pathEnd`). -/
def LatLon.crossTrackDistanceTo (p pathStart pathEnd : LatLon) (radius : ℝ) :
    ℝ :=
  let δ13 := pathStart.distanceTo p radius / radius
  let θ13 := toRadians (pathStart.bearingTo p)
  let θ12 := toRadians (pathStart.bearingTo pathEnd)
  Real.arcsin (Real.sin δ13 * Real.sin (θ13 - θ12)) * radius

/-- The tolerance `10e-12` of the source (equal to `1e-11`), below which the
Mercator stretch factor `q` is replaced by `cos φ1`. -/
def qEps : ℝ := 10 / 10 ^ 12

/-- The Mercator stretch factor `q` shared by `rhumbDistanceTo` and
`rhumbDestinationPoint`: `|Δψ| > 10e-12 ? Δφ/Δψ : cos φ1`. -/
def rhumbQ (Δφ Δψ cosφ1 : ℝ) : ℝ :=
  if |Δψ| > qEps then Δφ / Δψ else cosφ1

/-- The projected latitude difference
`Δψ = ln (tan (φ2/2 + π/4) / tan (φ1/2 + π/4))` shared by the rhumb
functions. -/
def rhumbΔψ (φ1 φ2 : ℝ) : ℝ :=
  Real.log (Real.tan (φ2/2 + Real.pi/4) / Real.tan (φ1/2 + Real.pi/4))

/-- Embedding of `LatLon.prototype.rhumbDistanceTo` (Mercator-projected Pythagorean
distance with anti-meridian wrap and the `q` guard). -/
def LatLon.rhumbDistanceTo (p point : LatLon) (radius : ℝ) : ℝ :=
  let φ1 := toRadians p.lat
  let φ2 := toRadians point.lat
  let Δφ := φ2 - φ1
  let ΔL0 := toRadians |point.lon - p.lon|
  let ΔL := if |ΔL0| > Real.pi then
              (if ΔL0 > 0 then -(2 * Real.pi - ΔL0) else 2 * Real.pi + ΔL0)
            else ΔL0
  let Δψ := rhumbΔψ φ1 φ2
  let q := rhumbQ Δφ Δψ (Real.cos φ1)
  Real.sqrt (Δφ * Δφ + q * q * ΔL * ΔL) * radius

/-- Embedding of `LatLon.prototype.rhumbBearingTo`. -/
def LatLon.rhumbBearingTo (p point : LatLon) : ℝ :=
  let φ1 := toRadians p.lat
  let φ2 := toRadians point.lat
  let ΔL0 := toRadians (point.lon - p.lon)
  let ΔL := if |ΔL0| > Real.pi then
              (if ΔL0 > 0 then -(2 * Real.pi - ΔL0) else 2 * Real.pi + ΔL0)
            else ΔL0
  let θ := atan2 ΔL (rhumbΔψ φ1 φ2)
  jsMod (toDegrees θ + 360) 360

/-- The projected latitude `φ2 = φ1 + δ cos θ` of
`rhumbDestinationPoint`, before the pole-crossing reflection. -/
def rhumbDestφ2raw (p : LatLon) (distance bearing radius : ℝ) : ℝ :=
  toRadians p.lat + distance / radius * Real.cos (toRadians bearing)

/-- The latitude (in radians) actually used by `rhumbDestinationPoint`: the
projected latitude, reflected through the pole when it exceeds `±π/2`
(`φ2 > 0 ? π - φ2 : -π - φ2`). -/
def rhumbDestφ2 (p : LatLon) (distance bearing radius : ℝ) : ℝ :=
  let φ2 := rhumbDestφ2raw p distance bearing radius
  if |φ2| > Real.pi / 2 then
    (if φ2 > 0 then Real.pi - φ2 else -Real.pi - φ2)
  else φ2

/-- The pre-normalisation longitude `λ2 = λ1 + δ sin θ / q` (radians) of
`rhumbDestinationPoint`. -/
def rhumbDestlam2 (p : LatLon) (distance bearing radius : ℝ) : ℝ :=
  let δ := distance / radius
  let φ1 := toRadians p.lat
  let θ := toRadians bearing
  let Δφ := δ * Real.cos θ
  let Δψ := rhumbΔψ φ1 (rhumbDestφ2 p distance bearing radius)
  let q := rhumbQ Δφ Δψ (Real.cos φ1)
  toRadians p.lon + δ * Real.sin θ / q

/-- Embedding of `LatLon.prototype.rhumbDestinationPoint` (forward rhumb solution). -/
def LatLon.rhumbDestinationPoint (p : LatLon) (distance bearing radius : ℝ) :
    LatLon :=
  ⟨toDegrees (rhumbDestφ2 p distance bearing radius),
   normLon (toDegrees (rhumbDestlam2 p distance bearing radius))⟩

/-- The pre-normalisation longitude `λ3` (radians) of `rhumbMidpointTo`.  The
source computes `λ3` by the isometric-latitude formula and falls back to the
arithmetic mean when `!isFinite(λ3)`; for real inputs the value is non-finite
exactly when the denominator `ln (f2 / f1)` is zero (the parallel-of-latitude
case), which is the branch modelled here. -/
def rhumbMidlam3 (p point : LatLon) : ℝ :=
  let φ1 := toRadians p.lat
  let lam1a := toRadians p.lon
  let φ2 := toRadians point.lat
  let lam2 := toRadians point.lon
  let lam1 := if |lam2 - lam1a| > Real.pi then lam1a + 2 * Real.pi else lam1a
  let φ3 := (φ1 + φ2) / 2
  let f1 := Real.tan (Real.pi/4 + φ1/2)
  let f2 := Real.tan (Real.pi/4 + φ2/2)
  let f3 := Real.tan (Real.pi/4 + φ3/2)
  if Real.log (f2 / f1) = 0 then (lam1 + lam2) / 2
  else ((lam2 - lam1) * Real.log f3 + lam1 * Real.log f2 - lam2 * Real.log f1)
        / Real.log (f2 / f1)

/-- Embedding of `LatLon.prototype.rhumbMidpointTo` (loxodromic midpoint). -/
def LatLon.rhumbMidpointTo (p point : LatLon) : LatLon :=
  let φ3 := (toRadians p.lat + toRadians point.lat) / 2
  ⟨toDegrees φ3, normLon (toDegrees (rhumbMidlam3 p point))⟩

/-- A JavaScript argument supplied where a `LatLon` is expected: an object
carrying numeric `lat` / `lon` fields together with the result of the
`instanceof LatLon` test.  `isLatLon = false` models any non-`LatLon` value
whose `lat` / `lon` properties read as the given numbers (on a plain object
the extended `Number.prototype` methods still apply, so the unguarded
computations below go through on it). -/
structure JsArg where
  isLatLon : Bool
  lat : ℝ
  lon : ℝ

/-- The point data carried by a `JsArg`. -/
def JsArg.toPoint (a : JsArg) : LatLon := ⟨a.lat, a.lon⟩

/-- The error taxonomy of the source: the single condition raised by the
`instanceof` guards (`throw new TypeError(… 'is not LatLon object')`). -/
inductive GeoError where
  | invalidArgumentType
deriving DecidableEq

/-- Embedding of `distanceTo` with its runtime `instanceof` guard (source line 69). -/
def distanceToJS (p : LatLon) (point : JsArg) (radius : ℝ) :
    Except GeoError ℝ :=
  if point.isLatLon then .ok (p.distanceTo point.toPoint radius)
  else .error .invalidArgumentType

/-- Embedding of `bearingTo` with its runtime `instanceof` guard (source line 100). -/
def bearingToJS (p : LatLon) (point : JsArg) : Except GeoError ℝ :=
  if point.isLatLon then .ok (p.bearingTo point.toPoint)
  else .error .invalidArgumentType

/-- Embedding of `finalBearingTo` with its runtime `instanceof` guard (source line 128). -/
def finalBearingToJS (p : LatLon) (point : JsArg) : Except GeoError ℝ :=
  if point.isLatLon then .ok (p.finalBearingTo point.toPoint)
  else .error .invalidArgumentType

/-- Embedding of `midpointTo` with its runtime `instanceof` guard (source line 147). -/
def midpointToJS (p : LatLon) (point : JsArg) : Except GeoError LatLon :=
  if point.isLatLon then .ok (p.midpointTo point.toPoint)
  else .error .invalidArgumentType

/-- Embedding of `intermediatePointTo` with its runtime `instanceof` guard (line 183). -/
def intermediatePointToJS (p : LatLon) (point : JsArg) (fraction : ℝ) :
    Except GeoError LatLon :=
  if point.isLatLon then .ok (p.intermediatePointTo point.toPoint fraction)
  else .error .invalidArgumentType

/-- Embedding of `LatLon.intersection` with its guards on both `p1` and `p2` (source lines
261-262, checked in that order). -/
def intersectionJS (p1 : JsArg) (brng1 : ℝ) (p2 : JsArg) (brng2 : ℝ) :
    Except GeoError (Option LatLon) :=
  if !p1.isLatLon then .error .invalidArgumentType
  else if !p2.isLatLon then .error .invalidArgumentType
  else .ok (LatLon.intersection p1.toPoint brng1 p2.toPoint brng2)

/-- Embedding of `crossTrackDistanceTo` with its guards on `pathStart` and `pathEnd`
(source lines 318-319). -/
def crossTrackDistanceToJS (p : LatLon) (pathStart pathEnd : JsArg)
    (radius : ℝ) : Except GeoError ℝ :=
  if !pathStart.isLatLon then .error .invalidArgumentType
  else if !pathEnd.isLatLon then .error .invalidArgumentType
  else .ok (p.crossTrackDistanceTo pathStart.toPoint pathEnd.toPoint radius)

/-- Embedding of `LatLon.crossingParallels` as the source defines it: it expects two
`LatLon` arguments but performs no `instanceof` validation at all, reading
`point1.lat` / `point1.lon` / `point2.lat` / `point2.lon` directly, so it
never raises `InvalidArgumentType`. -/
def crossingParallelsJS (point1 point2 : JsArg) (latitude : ℝ) :
    Except GeoError (Option (ℝ × ℝ)) :=
  .ok (LatLon.crossingParallels point1.toPoint point2.toPoint latitude)

/-- Embedding of `rhumbDistanceTo` with its runtime `instanceof` guard (source line 404). -/
def rhumbDistanceToJS (p : LatLon) (point : JsArg) (radius : ℝ) :
    Except GeoError ℝ :=
  if point.isLatLon then .ok (p.rhumbDistanceTo point.toPoint radius)
  else .error .invalidArgumentType

/-- Embedding of `rhumbBearingTo` with its runtime `instanceof` guard (source line 441). -/
def rhumbBearingToJS (p : LatLon) (point : JsArg) : Except GeoError ℝ :=
  if point.isLatLon then .ok (p.rhumbBearingTo point.toPoint)
  else .error .invalidArgumentType

/-- Embedding of `rhumbMidpointTo` with its runtime `instanceof` guard (source line 504). -/
def rhumbMidpointToJS (p : LatLon) (point : JsArg) : Except GeoError LatLon :=
  if point.isLatLon then .ok (p.rhumbMidpointTo point.toPoint)
  else .error .invalidArgumentType

/-- A JavaScript number in the NaN-tracking embedding: `some x` is the finite
double `x`, `none` is the undefined value.  `none` collapses IEEE `NaN` and
`±Infinity` into one value; on every evaluation path analysed below the
undefined value first arises as `0 / 0` (a genuine `NaN`) and then propagates
exactly as `NaN` does, so the collapse is faithful there. -/
abbrev JsNum := Option ℝ

/-- NaN-tracking addition. -/
def nAdd : JsNum → JsNum → JsNum
  | some a, some b => some (a + b)
  | _, _ => none

/-- NaN-tracking subtraction. -/
def nSub : JsNum → JsNum → JsNum
  | some a, some b => some (a - b)
  | _, _ => none

/-- NaN-tracking multiplication (in IEEE arithmetic `0 * NaN = NaN`, so
`none` propagates through every product). -/
def nMul : JsNum → JsNum → JsNum
  | some a, some b => some (a * b)
  | _, _ => none

/-- NaN-tracking negation. -/
def nNeg : JsNum → JsNum
  | some a => some (-a)
  | none => none

/-- NaN-tracking division: division by zero yields the undefined value
(`0 / 0 = NaN`; a nonzero numerator gives `±Infinity`, collapsed here). -/
def nDiv : JsNum → JsNum → JsNum
  | some a, some b => if b = 0 then none else some (a / b)
  | _, _ => none

/-- NaN-tracking `Math.sin` (`sin NaN = sin ±Infinity = NaN`). -/
def nSin : JsNum → JsNum
  | some a => some (Real.sin a)
  | none => none

/-- NaN-tracking `Math.cos`. -/
def nCos : JsNum → JsNum
  | some a => some (Real.cos a)
  | none => none

/-- NaN-tracking `Math.sqrt`: a negative argument yields `NaN`. -/
def nSqrt : JsNum → JsNum
  | some a => if a < 0 then none else some (Real.sqrt a)
  | none => none

/-- NaN-tracking `Math.asin`: an argument outside `[-1, 1]` yields `NaN`. -/
def nAsin : JsNum → JsNum
  | some a => if 1 < |a| then none else some (Real.arcsin a)
  | none => none

/-- NaN-tracking `Math.acos`: an argument outside `[-1, 1]` yields `NaN`. -/
def nAcos : JsNum → JsNum
  | some a => if 1 < |a| then none else some (Real.arccos a)
  | none => none

/-- NaN-tracking `Math.atan2`. -/
def nAtan2 : JsNum → JsNum → JsNum
  | some y, some x => some (atan2 y x)
  | _, _ => none

/-- NaN-tracking `%` (`x % 0 = NaN`). -/
def nModJs : JsNum → JsNum → JsNum
  | some a, some b => if b = 0 then none else some (jsMod a b)
  | _, _ => none

/-- NaN-tracking `toDegrees`. -/
def nToDegrees : JsNum → JsNum
  | some a => some (toDegrees a)
  | none => none

/-- The comparison `a == b` on JavaScript numbers: false whenever either side
is `NaN`. -/
def nEq : JsNum → JsNum → Prop
  | some a, some b => a = b
  | _, _ => False

/-- The comparison `a > b` on JavaScript numbers: false whenever either side
is `NaN`. -/
def nGt : JsNum → JsNum → Prop
  | some a, some b => a > b
  | _, _ => False

/-- The comparison `a < b` on JavaScript numbers: false whenever either side
is `NaN`. -/
def nLt : JsNum → JsNum → Prop
  | some a, some b => a < b
  | _, _ => False

/-- The angular distance `δ` computed inside `intermediatePointTo`, in the
NaN-tracking embedding. -/
def ipδ (p point : LatLon) : JsNum :=
  let φ1 := toRadians p.lat
  let φ2 := toRadians point.lat
  let Δφ := φ2 - φ1
  let ΔL := toRadians point.lon - toRadians p.lon
  let a := nAdd (nMul (nSin (some (Δφ/2))) (nSin (some (Δφ/2))))
               (nMul (nMul (nMul (nCos (some φ1)) (nCos (some φ2)))
                           (nSin (some (ΔL/2))))
                     (nSin (some (ΔL/2))))
  nMul (some 2) (nAtan2 (nSqrt a) (nSqrt (nSub (some 1) a)))

/-- The interpolation weight `A = sin ((1-f) δ) / sin δ` of
`intermediatePointTo`, NaN-tracking. -/
def ipA (p point : LatLon) (fraction : ℝ) : JsNum :=
  nDiv (nSin (nMul (some (1 - fraction)) (ipδ p point)))
       (nSin (ipδ p point))

/-- The interpolation weight `B = sin (f δ) / sin δ` of
`intermediatePointTo`, NaN-tracking. -/
def ipB (p point : LatLon) (fraction : ℝ) : JsNum :=
  nDiv (nSin (nMul (some fraction) (ipδ p point)))
       (nSin (ipδ p point))

/-- Embedding of `LatLon.prototype.intermediatePointTo` in the NaN-tracking embedding:
the returned pair is the `(lat, lon)` of the constructed `LatLon`, each
possibly the undefined value. -/
def intermediatePointToNan (p point : LatLon) (fraction : ℝ) :
    JsNum × JsNum :=
  let φ1 := toRadians p.lat
  let lam1 := toRadians p.lon
  let φ2 := toRadians point.lat
  let lam2 := toRadians point.lon
  let A := ipA p point fraction
  let B := ipB p point fraction
  let x := nAdd (nMul (nMul A (some (Real.cos φ1))) (some (Real.cos lam1)))
                (nMul (nMul B (some (Real.cos φ2))) (some (Real.cos lam2)))
  let y := nAdd (nMul (nMul A (some (Real.cos φ1))) (some (Real.sin lam1)))
                (nMul (nMul B (some (Real.cos φ2))) (some (Real.sin lam2)))
  let z := nAdd (nMul A (some (Real.sin φ1))) (nMul B (some (Real.sin φ2)))
  let φ3 := nAtan2 z (nSqrt (nAdd (nMul x x) (nMul y y)))
  let lam3 := nAtan2 y x
  (nToDegrees φ3,
   nSub (nModJs (nAdd (nToDegrees lam3) (some 540)) (some 360)) (some 180))

/-- The `δ12` of `LatLon.intersection`, NaN-tracking
(`2 * asin (sqrt …)`; a negative radicand or an out-of-range asin argument
would be `NaN`). -/
def inδ12Nan (p1 p2 : LatLon) : JsNum :=
  let φ1 := toRadians p1.lat
  let φ2 := toRadians p2.lat
  let Δφ := φ2 - φ1
  let ΔL := toRadians p2.lon - toRadians p1.lon
  let a := nAdd (nMul (nSin (some (Δφ/2))) (nSin (some (Δφ/2))))
               (nMul (nMul (nMul (nCos (some φ1)) (nCos (some φ2)))
                           (nSin (some (ΔL/2))))
                     (nSin (some (ΔL/2))))
  nMul (some 2) (nAsin (nSqrt a))

/-- The argument of the first arc cosine (`θa`) of `LatLon.intersection`,
NaN-tracking: `(sin φ2 - sin φ1 cos δ12) / (sin δ12 cos φ1)`. -/
def inθaArgNan (p1 p2 : LatLon) : JsNum :=
  let φ1 := toRadians p1.lat
  let φ2 := toRadians p2.lat
  nDiv (nSub (some (Real.sin φ2))
             (nMul (some (Real.sin φ1)) (nCos (inδ12Nan p1 p2))))
       (nMul (nSin (inδ12Nan p1 p2)) (some (Real.cos φ1)))

/-- The guarded `θa` of `LatLon.intersection`, NaN-tracking: the source's
`θa = acos (…); if (isNaN(θa)) θa = 0`. -/
def inθaNan (p1 p2 : LatLon) : JsNum :=
  let t := nAcos (inθaArgNan p1 p2)
  if t = none then some 0 else t

/-- The argument of the second arc cosine (`θb`) of `LatLon.intersection`,
NaN-tracking: `(sin φ1 - sin φ2 cos δ12) / (sin δ12 cos φ2)`. -/
def inθbArgNan (p1 p2 : LatLon) : JsNum :=
  let φ1 := toRadians p1.lat
  let φ2 := toRadians p2.lat
  nDiv (nSub (some (Real.sin φ1))
             (nMul (some (Real.sin φ2)) (nCos (inδ12Nan p1 p2))))
       (nMul (nSin (inδ12Nan p1 p2)) (some (Real.cos φ2)))

/-- The unguarded `θb` of `LatLon.intersection`, NaN-tracking: the source
applies no `isNaN` guard here. -/
def inθbNan (p1 p2 : LatLon) : JsNum :=
  nAcos (inθbArgNan p1 p2)

/-- Embedding of `LatLon.intersection` in the NaN-tracking embedding.  The outer `Option`
is the source's `null` return; the inner pair is the `(lat, lon)` of the
constructed `LatLon`, each possibly the undefined value. -/
def intersectionNan (p1 : LatLon) (brng1 : ℝ) (p2 : LatLon) (brng2 : ℝ) :
    Option (JsNum × JsNum) :=
  let φ1 := toRadians p1.lat
  let lam1 := toRadians p1.lon
  let lam2 := toRadians p2.lon
  let θ13 := toRadians brng1
  let θ23 := toRadians brng2
  let δ12 := inδ12Nan p1 p2
  if nEq δ12 (some 0) then none
  else
    let θa := inθaNan p1 p2
    let θb := inθbNan p1 p2
    let θ12 := if Real.sin (lam2 - lam1) > 0 then θa
               else nSub (some (2 * Real.pi)) θa
    let θ21 := if Real.sin (lam2 - lam1) > 0 then
                 nSub (some (2 * Real.pi)) θb
               else θb
    let α1 := nSub (nModJs (nAdd (nSub (some θ13) θ12) (some Real.pi))
                          (some (2 * Real.pi)))
                   (some Real.pi)
    let α2 := nSub (nModJs (nAdd (nSub θ21 (some θ23)) (some Real.pi))
                          (some (2 * Real.pi)))
                   (some Real.pi)
    if nEq (nSin α1) (some 0) ∧ nEq (nSin α2) (some 0) then none
    else if nLt (nMul (nSin α1) (nSin α2)) (some 0) then none
    else
      let α3 := nAcos (nAdd (nMul (nNeg (nCos α1)) (nCos α2))
                            (nMul (nMul (nSin α1) (nSin α2)) (nCos δ12)))
      let δ13 := nAtan2 (nMul (nMul (nSin δ12) (nSin α1)) (nSin α2))
                        (nAdd (nCos α2) (nMul (nCos α1) (nCos α3)))
      let φ3 := nAsin (nAdd (nMul (some (Real.sin φ1)) (nCos δ13))
                            (nMul (nMul (some (Real.cos φ1)) (nSin δ13))
                                  (some (Real.cos θ13))))
      let ΔL13 := nAtan2 (nMul (nMul (some (Real.sin θ13)) (nSin δ13))
                               (some (Real.cos φ1)))
                         (nSub (nCos δ13)
                               (nMul (some (Real.sin φ1)) (nSin φ3)))
      let lam3 := nAdd (some lam1) ΔL13
      some (nToDegrees φ3,
            nSub (nModJs (nAdd (nToDegrees lam3) (some 540)) (some 360))
                 (some 180))

/-- Embedding of `LatLon.crossingParallels` in the NaN-tracking semantics.
The inputs `x`, `y`, `z`, `λm` are plain real trigonometric combinations
(never `NaN` for finite inputs); the only `NaN` source is
`acos (z / sqrt (x² + y²))`: when `x = y = z = 0` the division is `0 / 0`
(when `z ≠ 0` and the root is `0`, the quotient is infinite and the `acos`
is again `NaN`, the same undefined value here), and that undefined value
propagates into both returned longitudes. -/
def crossingParallelsNan (point1 point2 : LatLon) (latitude : ℝ) :
    Option (JsNum × JsNum) :=
  let lam1 := toRadians point1.lon
  let x := cpX point1 point2 latitude
  let y := cpY point1 point2 latitude
  let z := cpZ point1 point2 latitude
  if z * z > x * x + y * y then none
  else
    let lamM := atan2 (-y) x
    let ΔLi := nAcos (nDiv (some z) (nSqrt (some (x * x + y * y))))
    let li1 := nSub (some (lam1 + lamM)) ΔLi
    let li2 := nAdd (some (lam1 + lamM)) ΔLi
    some (nSub (nModJs (nAdd (nToDegrees li1) (some 540)) (some 360))
            (some 180),
          nSub (nModJs (nAdd (nToDegrees li2) (some 540)) (some 360))
            (some 180))

/-- For a nonnegative dividend and positive divisor, the JavaScript remainder
lies in `[0, n)` (it coincides with the mathematical remainder there). -/
lemma jsMod_mem_Ico (a n : ℝ) (ha : 0 ≤ a) (hn : 0 < n) :
    jsMod a n ∈ Set.Ico 0 n := by
  unfold jsMod jsTrunc
  have hdiv : 0 ≤ a / n := div_nonneg ha hn.le
  rw [if_pos hdiv]
  constructor
  · have h1 : (⌊a / n⌋ : ℝ) * n ≤ a := (le_div_iff₀ hn).mp (Int.floor_le _)
    nlinarith
  · have h2 : a < ((⌊a / n⌋ : ℝ) + 1) * n :=
      (div_lt_iff₀ hn).mp (Int.lt_floor_add_one _)
    nlinarith

/-- The source's longitude normalisation lands in `[-180, 180)` whenever the
pre-normalisation longitude is at least `-540` degrees. -/
lemma normLon_mem_Ico (d : ℝ) (h : -540 ≤ d) :
    normLon d ∈ Set.Ico (-180 : ℝ) 180 := by
  have := jsMod_mem_Ico (d + 540) 360 (by linarith) (by norm_num)
  unfold normLon
  rcases this with ⟨h0, h1⟩
  constructor <;> [linarith; linarith]

/-- The function `atan2` never exceeds `π`. -/
lemma atan2_le_pi (y x : ℝ) : atan2 y x ≤ Real.pi := Complex.arg_le_pi _

/-- The function `atan2` is strictly greater than `-π`. -/
lemma neg_pi_lt_atan2 (y x : ℝ) : -Real.pi < atan2 y x :=
  Complex.neg_pi_lt_arg _

/-- A longitude in `[-180, 180]` converts to a radian value in `[-π, π]`. -/
lemma toRadians_mem (d : ℝ) (h : d ∈ Set.Icc (-180 : ℝ) 180) :
    toRadians d ∈ Set.Icc (-Real.pi) Real.pi := by
  have hπ := Real.pi_pos
  rcases h with ⟨h1, h2⟩
  unfold toRadians
  constructor
  · rw [le_div_iff₀ (by norm_num : (0:ℝ) < 180)]
    nlinarith
  · rw [div_le_iff₀ (by norm_num : (0:ℝ) < 180)]
    nlinarith

/-- Radian values at least `-3π` convert to at least `-540` degrees. -/
lemma toDegrees_ge_neg540 (r : ℝ) (h : -(3 * Real.pi) ≤ r) :
    -540 ≤ toDegrees r := by
  have hπ := Real.pi_pos
  unfold toDegrees
  rw [le_div_iff₀ hπ]
  nlinarith

/-- Claim C10 — `maxLatitude` always returns a value in `[0, 90]`, and the
result depends only on the point's latitude: changing the longitude alone
never changes the output. -/
theorem maxLatitude_range_and_lon_independent (lat lon lonB bearing : ℝ) :
    LatLon.maxLatitude ⟨lat, lon⟩ bearing ∈ Set.Icc (0 : ℝ) 90
    ∧ LatLon.maxLatitude ⟨lat, lon⟩ bearing
        = LatLon.maxLatitude ⟨lat, lonB⟩ bearing := by
  refine ⟨?_, rfl⟩
  unfold LatLon.maxLatitude
  have hπ := Real.pi_pos
  have h0 : 0 ≤ Real.arccos |Real.sin (toRadians bearing)
      * Real.cos (toRadians lat)| := Real.arccos_nonneg _
  have h2 : Real.arccos |Real.sin (toRadians bearing)
      * Real.cos (toRadians lat)| ≤ Real.pi / 2 :=
    Real.arccos_le_pi_div_two.mpr (abs_nonneg _)
  unfold toDegrees
  constructor
  · positivity
  · rw [div_le_iff₀ hπ]
    nlinarith

/-- Claim C9 — `crossingParallels` returns `null` exactly when
`z² > x² + y²` in its vector formulation (the great circle does not reach the
requested latitude); otherwise it returns the pair of crossing longitudes. -/
theorem crossingParallels_none_iff (p1 p2 : LatLon) (latitude : ℝ) :
    (LatLon.crossingParallels p1 p2 latitude = none ↔
      cpZ p1 p2 latitude * cpZ p1 p2 latitude >
        cpX p1 p2 latitude * cpX p1 p2 latitude
          + cpY p1 p2 latitude * cpY p1 p2 latitude)
    ∧ (¬ cpZ p1 p2 latitude * cpZ p1 p2 latitude >
        cpX p1 p2 latitude * cpX p1 p2 latitude
          + cpY p1 p2 latitude * cpY p1 p2 latitude →
        ∃ l1 l2, LatLon.crossingParallels p1 p2 latitude = some (l1, l2)) := by
  constructor
  · simp only [LatLon.crossingParallels]
    split_ifs with h
    · simpa using h
    · simpa using h
  · intro h
    simp only [LatLon.crossingParallels]
    rw [if_neg h]
    exact ⟨_, _, rfl⟩

/-- Witness for C9 at a concrete input (equatorial points, equator parallel:
the test quantities are all `0`, the parallel is reached). -/
theorem crossingParallels_none_iff_witness :
    ∃ l1 l2, LatLon.crossingParallels ⟨0, 0⟩ ⟨0, 90⟩ 0 = some (l1, l2) :=
  (crossingParallels_none_iff ⟨0, 0⟩ ⟨0, 90⟩ 0).2
    (by norm_num [cpX, cpY, cpZ, toRadians])

/-- Claim C6 — the Mercator stretch factor of `rhumbDistanceTo` and
`rhumbDestinationPoint`: the guard threshold is `1e-11`; `q = Δφ/Δψ` whenever
`|Δψ| > 1e-11`; and `q = cos φ1` whenever `|Δψ| ≤ 1e-11`, so the division is
never performed with a denominator of magnitude at most `1e-11`. -/
theorem rhumbQ_guard :
    qEps = 1 / 10 ^ 11
    ∧ (∀ Δφ Δψ c : ℝ, qEps < |Δψ| → rhumbQ Δφ Δψ c = Δφ / Δψ)
    ∧ (∀ Δφ Δψ c : ℝ, |Δψ| ≤ qEps → rhumbQ Δφ Δψ c = c) := by
  refine ⟨by norm_num [qEps], fun Δφ Δψ c h => ?_, fun Δφ Δψ c h => ?_⟩
  · unfold rhumbQ
    rw [if_pos h]
  · unfold rhumbQ
    rw [if_neg (not_lt.mpr h)]

/-- Witness for C6: at `Δψ = 0` the substituted factor is returned. -/
theorem rhumbQ_guard_witness : rhumbQ 1 0 5 = 5 :=
  rhumbQ_guard.2.2 1 0 5 (by norm_num [qEps])

/-- Claim C2 (amended) — every operation expecting a Point validates it with
`instanceof` and raises the single `InvalidArgumentType` condition on failure
(`intersection` and `crossTrackDistanceTo` for both of their point
arguments), with the sole exception of `crossingParallels`, which performs no
validation and never raises: it computes directly from the argument's
`lat`/`lon` fields. -/
theorem point_guards_uniform :
    (∀ (p : LatLon) (a : JsArg) (r : ℝ), a.isLatLon = false →
        distanceToJS p a r = .error .invalidArgumentType)
    ∧ (∀ (p : LatLon) (a : JsArg), a.isLatLon = false →
        bearingToJS p a = .error .invalidArgumentType)
    ∧ (∀ (p : LatLon) (a : JsArg), a.isLatLon = false →
        finalBearingToJS p a = .error .invalidArgumentType)
    ∧ (∀ (p : LatLon) (a : JsArg), a.isLatLon = false →
        midpointToJS p a = .error .invalidArgumentType)
    ∧ (∀ (p : LatLon) (a : JsArg) (f : ℝ), a.isLatLon = false →
        intermediatePointToJS p a f = .error .invalidArgumentType)
    ∧ (∀ (a1 : JsArg) (b1 : ℝ) (a2 : JsArg) (b2 : ℝ),
        a1.isLatLon = false ∨ a2.isLatLon = false →
        intersectionJS a1 b1 a2 b2 = .error .invalidArgumentType)
    ∧ (∀ (p : LatLon) (a1 a2 : JsArg) (r : ℝ),
        a1.isLatLon = false ∨ a2.isLatLon = false →
        crossTrackDistanceToJS p a1 a2 r = .error .invalidArgumentType)
    ∧ (∀ (p : LatLon) (a : JsArg) (r : ℝ), a.isLatLon = false →
        rhumbDistanceToJS p a r = .error .invalidArgumentType)
    ∧ (∀ (p : LatLon) (a : JsArg), a.isLatLon = false →
        rhumbBearingToJS p a = .error .invalidArgumentType)
    ∧ (∀ (p : LatLon) (a : JsArg), a.isLatLon = false →
        rhumbMidpointToJS p a = .error .invalidArgumentType)
    ∧ (∀ (a1 a2 : JsArg) (lat : ℝ),
        crossingParallelsJS a1 a2 lat
          = .ok (LatLon.crossingParallels a1.toPoint a2.toPoint lat)) := by
  refine ⟨fun p a r h => by simp [distanceToJS, h],
          fun p a h => by simp [bearingToJS, h],
          fun p a h => by simp [finalBearingToJS, h],
          fun p a h => by simp [midpointToJS, h],
          fun p a f h => by simp [intermediatePointToJS, h],
          fun a1 b1 a2 b2 h => ?_,
          fun p a1 a2 r h => ?_,
          fun p a r h => by simp [rhumbDistanceToJS, h],
          fun p a h => by simp [rhumbBearingToJS, h],
          fun p a h => by simp [rhumbMidpointToJS, h],
          fun a1 a2 lat => rfl⟩
  · rcases h with h | h
    · simp [intersectionJS, h]
    · by_cases h1 : a1.isLatLon <;> simp [intersectionJS, h, h1]
  · rcases h with h | h
    · simp [crossTrackDistanceToJS, h]
    · by_cases h1 : a1.isLatLon <;> simp [crossTrackDistanceToJS, h, h1]

/-- Witness for C2 (amended) at a concrete input: `distanceTo` given a
non-`LatLon` raises `InvalidArgumentType`. -/
theorem point_guards_uniform_witness :
    distanceToJS ⟨0, 0⟩ ⟨false, 1, 2⟩ 5 = .error .invalidArgumentType :=
  point_guards_uniform.1 ⟨0, 0⟩ ⟨false, 1, 2⟩ 5 rfl

/-- Counterexample to C2 as stated — `crossingParallels`, given two
non-`LatLon` arguments, does not raise `InvalidArgumentType` (it has no
`instanceof` guard and simply computes). -/
theorem crossingParallels_no_guard :
    crossingParallelsJS ⟨false, 0, 0⟩ ⟨false, 10, 20⟩ 0
      ≠ Except.error GeoError.invalidArgumentType := by
  simp [crossingParallelsJS]

/-- A radian value of magnitude at most `π/2` converts to a degree value in
`[-90, 90]`. -/
lemma toDegrees_mem_of_abs_le (v : ℝ) (h : |v| ≤ Real.pi / 2) :
    toDegrees v ∈ Set.Icc (-90 : ℝ) 90 := by
  have hπ := Real.pi_pos
  rw [abs_le] at h
  unfold toDegrees
  constructor
  · rw [le_div_iff₀ hπ]
    nlinarith [h.1]
  · rw [div_le_iff₀ hπ]
    nlinarith [h.2]

/-- Claim C7 — `rhumbDestinationPoint`: a projected latitude beyond `±90°` is
reflected through the pole (`φ2 = sign φ2 * π - φ2`), not clamped, and
whenever the projected latitude `φ1 + (d/r)·cos θ` has magnitude at most
`3π/2` the returned latitude lies in `[-90, 90]`. -/
theorem rhumbDest_lat_reflected (p : LatLon) (d b r : ℝ)
    (hlat : |p.lat| ≤ 90) (hd : 0 ≤ d) (hr : 0 < r) :
    (Real.pi / 2 < |rhumbDestφ2raw p d b r| →
      rhumbDestφ2 p d b r
        = Real.sign (rhumbDestφ2raw p d b r) * Real.pi
            - rhumbDestφ2raw p d b r)
    ∧ (|rhumbDestφ2raw p d b r| ≤ 3 * Real.pi / 2 →
      (p.rhumbDestinationPoint d b r).lat ∈ Set.Icc (-90 : ℝ) 90) := by
  have hπ := Real.pi_pos
  set φraw := rhumbDestφ2raw p d b r with hφraw
  constructor
  · intro h
    unfold rhumbDestφ2
    rw [← hφraw, if_pos h]
    by_cases hpos : φraw > 0
    · rw [if_pos hpos, Real.sign_of_pos hpos]
      ring
    · have hne : φraw ≠ 0 := by
        intro h0
        rw [h0, abs_zero] at h
        linarith
      have hneg : φraw < 0 := lt_of_le_of_ne (not_lt.mp hpos) hne
      rw [if_neg hpos, Real.sign_of_neg hneg]
      ring
  · intro h3
    have habs : |rhumbDestφ2 p d b r| ≤ Real.pi / 2 := by
      unfold rhumbDestφ2
      rw [← hφraw]
      dsimp only
      split_ifs with h1 h2
      · rw [abs_of_pos h2] at h1
        rw [abs_le] at h3 ⊢
        constructor <;> nlinarith [h3.2]
      · have hle : φraw ≤ 0 := not_lt.mp h2
        rw [abs_of_nonpos hle] at h1
        rw [abs_le] at h3 ⊢
        constructor <;> nlinarith [h3.1]
      · exact not_lt.mp h1
    have := toDegrees_mem_of_abs_le _ habs
    simpa [LatLon.rhumbDestinationPoint] using this

/-- Witness for C7 at a concrete input. -/
theorem rhumbDest_lat_reflected_witness :
    (LatLon.rhumbDestinationPoint ⟨0, 0⟩ 0 0 1).lat ∈ Set.Icc (-90 : ℝ) 90 :=
  (rhumbDest_lat_reflected ⟨0, 0⟩ 0 0 1 (by norm_num) le_rfl one_pos).2
    (by rw [show rhumbDestφ2raw ⟨0, 0⟩ 0 0 1 = 0 by
          norm_num [rhumbDestφ2raw, toRadians], abs_zero]
        positivity)

/-- Evaluation fact: `atan2 0 x = 0` for nonnegative `x` (as in JavaScript). -/
lemma atan2_zero_of_nonneg (x : ℝ) (h : 0 ≤ x) : atan2 0 x = 0 := by
  unfold atan2
  rw [show (⟨x, 0⟩ : ℂ) = ((x : ℝ) : ℂ) from rfl]
  exact Complex.arg_ofReal_of_nonneg h

/-- The angular distance `δ12` of `intersection` is `0` for coincident start
points. -/
lemma interδ12_self (p : LatLon) : interδ12 p p = 0 := by
  simp [interδ12, sub_self]

/-- Claim C3 — `intersection` returns `null` exactly when `δ12 = 0`, or both
included angles have zero sine, or the sines of the two included angles have
opposite sign; in particular it returns `null` for `p1 = p2`, and otherwise
it returns a point. -/
theorem intersection_none_iff (p1 : LatLon) (brng1 : ℝ) (p2 : LatLon)
    (brng2 : ℝ) :
    (LatLon.intersection p1 brng1 p2 brng2 = none ↔
      interδ12 p1 p2 = 0
      ∨ (Real.sin (interα1 p1 brng1 p2) = 0
          ∧ Real.sin (interα2 p1 p2 brng2) = 0)
      ∨ Real.sin (interα1 p1 brng1 p2) * Real.sin (interα2 p1 p2 brng2) < 0)
    ∧ (p1 = p2 → LatLon.intersection p1 brng1 p2 brng2 = none)
    ∧ (¬ (interδ12 p1 p2 = 0
          ∨ (Real.sin (interα1 p1 brng1 p2) = 0
              ∧ Real.sin (interα2 p1 p2 brng2) = 0)
          ∨ Real.sin (interα1 p1 brng1 p2) * Real.sin (interα2 p1 p2 brng2)
              < 0) →
        ∃ pt, LatLon.intersection p1 brng1 p2 brng2 = some pt) := by
  have hiff : LatLon.intersection p1 brng1 p2 brng2 = none ↔
      interδ12 p1 p2 = 0
      ∨ (Real.sin (interα1 p1 brng1 p2) = 0
          ∧ Real.sin (interα2 p1 p2 brng2) = 0)
      ∨ Real.sin (interα1 p1 brng1 p2) * Real.sin (interα2 p1 p2 brng2)
          < 0 := by
    simp only [LatLon.intersection]
    split_ifs with h1 h2 h3 <;> simp_all
  refine ⟨hiff, fun hpq => ?_, fun h => ?_⟩
  · exact hiff.mpr (Or.inl (by rw [hpq]; exact interδ12_self p2))
  · rcases hval : LatLon.intersection p1 brng1 p2 brng2 with _ | pt
    · exact absurd (hiff.mp hval) h
    · exact ⟨pt, rfl⟩

/-- Witness for C3: coincident start points give `null`. -/
theorem intersection_none_iff_witness :
    LatLon.intersection ⟨10, 20⟩ 5 ⟨10, 20⟩ 7 = none :=
  (intersection_none_iff ⟨10, 20⟩ 5 ⟨10, 20⟩ 7).2.1 rfl

/-- Claim C8 — for coincident input points the angular distance `δ` computed
inside `intermediatePointTo` is `0`, its sine is `0`, both interpolation
weights are the division `0 / 0` (IEEE `NaN`, the undefined value of the
NaN-tracking embedding), no branch intercepts this, and both coordinates of
the returned point are the undefined value. -/
theorem intermediatePointTo_coincident_nan (lat lon fraction : ℝ) :
    ipδ ⟨lat, lon⟩ ⟨lat, lon⟩ = some 0
    ∧ nSin (ipδ ⟨lat, lon⟩ ⟨lat, lon⟩) = some 0
    ∧ ipA ⟨lat, lon⟩ ⟨lat, lon⟩ fraction = none
    ∧ ipB ⟨lat, lon⟩ ⟨lat, lon⟩ fraction = none
    ∧ intermediatePointToNan ⟨lat, lon⟩ ⟨lat, lon⟩ fraction = (none, none) := by
  have hδ : ipδ ⟨lat, lon⟩ ⟨lat, lon⟩ = some 0 := by
    norm_num [ipδ, nAdd, nMul, nSin, nCos, nSqrt, nSub, nAtan2, sub_self,
      atan2_zero_of_nonneg]
  have hA : ipA ⟨lat, lon⟩ ⟨lat, lon⟩ fraction = none := by
    simp [ipA, hδ, nDiv, nMul, nSin]
  have hB : ipB ⟨lat, lon⟩ ⟨lat, lon⟩ fraction = none := by
    simp [ipB, hδ, nDiv, nMul, nSin]
  refine ⟨hδ, by simp [hδ, nSin], hA, hB, ?_⟩
  simp [intermediatePointToNan, hA, hB, nAdd, nMul, nSin, nSqrt, nAtan2,
    nToDegrees, nModJs, nSub]

/-- Evaluation fact: `normLon (-180) = -180` (so `-180`, not `180`, is the fixed endpoint of
the normalisation). -/
lemma normLon_neg180 : normLon (-180) = -180 := by
  unfold normLon jsMod jsTrunc
  norm_num

/-- Evaluation fact: `toDegrees (-π) = -180`. -/
lemma toDegrees_neg_pi : toDegrees (-Real.pi) = -180 := by
  unfold toDegrees
  field_simp
  ring

/-- A longitude produced directly by an `atan2` is normalised into
`[-180, 180)`. -/
lemma normLon_toDegrees_atan2_mem (y x : ℝ) :
    normLon (toDegrees (atan2 y x)) ∈ Set.Ico (-180 : ℝ) 180 :=
  normLon_mem_Ico _ (toDegrees_ge_neg540 _
    (by nlinarith [neg_pi_lt_atan2 y x, Real.pi_pos]))

/-- A longitude of the form `λ1 + atan2 …` with `λ1 ≥ -π` is normalised into
`[-180, 180)`. -/
lemma normLon_toDegrees_add_atan2_mem (lam y x : ℝ) (hlam : -Real.pi ≤ lam) :
    normLon (toDegrees (lam + atan2 y x)) ∈ Set.Ico (-180 : ℝ) 180 :=
  normLon_mem_Ico _ (toDegrees_ge_neg540 _
    (by nlinarith [neg_pi_lt_atan2 y x, Real.pi_pos]))

/-- In the NaN-tracking embedding, a finite longitude produced by the final
normalisation `(deg + 540) % 360 - 180` lies in `[-180, 180)` whenever every
finite value of the pre-normalisation longitude converts to at least `-540`
degrees. -/
lemma nanNormLon_mem (lam : JsNum) (L : ℝ)
    (hlam : ∀ l : ℝ, lam = some l → -540 ≤ toDegrees l)
    (h : nSub (nModJs (nAdd (nToDegrees lam) (some 540)) (some 360))
          (some 180) = some L) :
    L ∈ Set.Ico (-180 : ℝ) 180 := by
  have h360 : ((360 : ℝ) = 0) = False := by norm_num
  cases lam with
  | none => simp [nToDegrees, nAdd, nModJs, nSub] at h
  | some l =>
    simp only [nToDegrees, nAdd, nModJs, nSub, h360, if_false] at h
    have hL := Option.some.inj h
    subst hL
    exact normLon_mem_Ico _ (hlam l rfl)

/-- A finite value of an `nAtan2` converts to at least `-540` degrees. -/
lemma nAtan2_some_deg_ge (y x : JsNum) (l : ℝ) (h : nAtan2 y x = some l) :
    -540 ≤ toDegrees l := by
  cases y with
  | none => simp [nAtan2] at h
  | some yv =>
    cases x with
    | none => simp [nAtan2] at h
    | some xv =>
      simp only [nAtan2, Option.some.injEq] at h
      subst h
      exact toDegrees_ge_neg540 _
        (by nlinarith [neg_pi_lt_atan2 yv xv, Real.pi_pos])

/-- A finite value of `λ1 + atan2 …` with `λ1 ≥ -π` converts to at least
`-540` degrees. -/
lemma nAdd_some_nAtan2_deg_ge (lam1 : ℝ) (y x : JsNum) (l : ℝ)
    (hlam1 : -Real.pi ≤ lam1)
    (h : nAdd (some lam1) (nAtan2 y x) = some l) :
    -540 ≤ toDegrees l := by
  cases y with
  | none => simp [nAtan2, nAdd] at h
  | some yv =>
    cases x with
    | none => simp [nAtan2, nAdd] at h
    | some xv =>
      simp only [nAtan2, nAdd, Option.some.injEq] at h
      subst h
      exact toDegrees_ge_neg540 _
        (by nlinarith [neg_pi_lt_atan2 yv xv, Real.pi_pos])

/-- A finite value of an `nAcos` lies in `[0, π]`. -/
lemma nAcos_some_bounds (w : JsNum) (d : ℝ) (h : nAcos w = some d) :
    0 ≤ d ∧ d ≤ Real.pi := by
  cases w with
  | none => simp [nAcos] at h
  | some a =>
    simp only [nAcos] at h
    split_ifs at h
    have hd := Option.some.inj h
    subst hd
    exact ⟨Real.arccos_nonneg a, Real.arccos_le_pi a⟩

/-- Claim C1 (amended) — every longitude-producing operation normalises with
`(deg + 540) % 360 - 180`, which lands in the half-open interval
`[-180, 180)` — not `(-180, 180]` — whenever the value being normalised is a
finite number of at least `-540°`.  Concretely: unconditional for
`midpointTo`, and for `destinationPoint` with a nonzero radius, once the
start longitude is in `[-180, 180]` (these two compute no division by zero);
for `intermediatePointTo`, `intersection` and `crossingParallels` the
guarantee holds whenever the computation produces a finite longitude at all
(their degenerate `0 / 0` paths yield `NaN` coordinates instead, per the
NaN-tracking embedding), with the start longitude in `[-180, 180]` where it
enters; for `rhumbDestinationPoint` and `rhumbMidpointTo` the bound on the
pre-normalisation longitude is an explicit hypothesis (a large travel or
unnormalised input can push it below `-540°`, and the result then falls
outside `[-180, 180)`). -/
theorem newLongitude_in_Ico :
    (∀ p q : LatLon, p.lon ∈ Set.Icc (-180 : ℝ) 180 →
      (p.midpointTo q).lon ∈ Set.Ico (-180 : ℝ) 180)
    ∧ (∀ (p q : LatLon) (f L : ℝ),
      (intermediatePointToNan p q f).2 = some L →
      L ∈ Set.Ico (-180 : ℝ) 180)
    ∧ (∀ (p : LatLon) (d b r : ℝ), p.lon ∈ Set.Icc (-180 : ℝ) 180 →
      r ≠ 0 → (p.destinationPoint d b r).lon ∈ Set.Ico (-180 : ℝ) 180)
    ∧ (∀ (p1 : LatLon) (b1 : ℝ) (p2 : LatLon) (b2 : ℝ)
        (pr : JsNum × JsNum) (L : ℝ),
      p1.lon ∈ Set.Icc (-180 : ℝ) 180 →
      intersectionNan p1 b1 p2 b2 = some pr → pr.2 = some L →
      L ∈ Set.Ico (-180 : ℝ) 180)
    ∧ (∀ (p1 p2 : LatLon) (lat : ℝ) (pr : JsNum × JsNum),
      p1.lon ∈ Set.Icc (-180 : ℝ) 180 →
      crossingParallelsNan p1 p2 lat = some pr →
      (∀ L : ℝ, pr.1 = some L → L ∈ Set.Ico (-180 : ℝ) 180)
      ∧ (∀ L : ℝ, pr.2 = some L → L ∈ Set.Ico (-180 : ℝ) 180))
    ∧ (∀ (p : LatLon) (d b r : ℝ),
      -540 ≤ toDegrees (rhumbDestlam2 p d b r) →
      (p.rhumbDestinationPoint d b r).lon ∈ Set.Ico (-180 : ℝ) 180)
    ∧ (∀ p q : LatLon, -540 ≤ toDegrees (rhumbMidlam3 p q) →
      (p.rhumbMidpointTo q).lon ∈ Set.Ico (-180 : ℝ) 180) := by
  refine ⟨fun p q hp => ?_, fun p q f L h => ?_, fun p d b r hp hr => ?_,
          fun p1 b1 p2 b2 pr L hp h h2 => ?_, fun p1 p2 lat pr hp h => ?_,
          fun p d b r h => ?_, fun p q h => ?_⟩
  · exact normLon_toDegrees_add_atan2_mem _ _ _ (toRadians_mem p.lon hp).1
  · exact nanNormLon_mem _ _ (fun l hl => nAtan2_some_deg_ge _ _ l hl) h
  · exact normLon_toDegrees_add_atan2_mem _ _ _ (toRadians_mem p.lon hp).1
  · have hlam1 := (toRadians_mem p1.lon hp).1
    simp only [intersectionNan] at h
    split_ifs at h
    all_goals (
      have h4 := (Option.some.inj h).symm
      subst h4
      refine nanNormLon_mem _ _
        (fun l hl => nAdd_some_nAtan2_deg_ge _ _ _ l hlam1 hl) h2)
  · have hπ := Real.pi_pos
    have hlam1 := (toRadians_mem p1.lon hp).1
    have ha1 := neg_pi_lt_atan2 (-cpY p1 p2 lat) (cpX p1 p2 lat)
    simp only [crossingParallelsNan] at h
    split_ifs at h
    have h4 := (Option.some.inj h).symm
    subst h4
    constructor
    · intro L hL
      refine nanNormLon_mem _ _ (fun l hl => ?_) hL
      cases hd : nAcos (nDiv (some (cpZ p1 p2 lat))
          (nSqrt (some (cpX p1 p2 lat * cpX p1 p2 lat
            + cpY p1 p2 lat * cpY p1 p2 lat)))) with
      | none => rw [hd] at hl; simp [nSub] at hl
      | some d =>
        rw [hd] at hl
        simp only [nSub, Option.some.injEq] at hl
        subst hl
        have hb := nAcos_some_bounds _ _ hd
        exact toDegrees_ge_neg540 _ (by nlinarith [hb.1, hb.2])
    · intro L hL
      refine nanNormLon_mem _ _ (fun l hl => ?_) hL
      cases hd : nAcos (nDiv (some (cpZ p1 p2 lat))
          (nSqrt (some (cpX p1 p2 lat * cpX p1 p2 lat
            + cpY p1 p2 lat * cpY p1 p2 lat)))) with
      | none => rw [hd] at hl; simp [nAdd] at hl
      | some d =>
        rw [hd] at hl
        simp only [nAdd, Option.some.injEq] at hl
        subst hl
        have hb := nAcos_some_bounds _ _ hd
        exact toDegrees_ge_neg540 _ (by nlinarith [hb.1, hb.2])
  · exact normLon_mem_Ico _ h
  · exact normLon_mem_Ico _ h

/-- Witness for C1 (amended) at a concrete input. -/
theorem newLongitude_in_Ico_witness :
    (LatLon.midpointTo ⟨0, 0⟩ ⟨0, 0⟩).lon ∈ Set.Ico (-180 : ℝ) 180 :=
  newLongitude_in_Ico.1 ⟨0, 0⟩ ⟨0, 0⟩ (by norm_num)

/-- Counterexample to C1 as stated — the midpoint of `(0°, -180°)` with
itself has longitude exactly `-180`, which is outside the claimed interval
`(-180, 180]` (the normalisation `(deg + 540) % 360 - 180` produces
`[-180, 180)`). -/
theorem midpointTo_lon_eq_neg180 :
    ¬ (LatLon.midpointTo ⟨0, -180⟩ ⟨0, -180⟩).lon ∈ Set.Ioc (-180 : ℝ) 180 := by
  have h0 : toRadians (0 : ℝ) = 0 := by norm_num [toRadians]
  have hneg : toRadians (-180 : ℝ) = -Real.pi := by unfold toRadians; ring
  have hlon : (LatLon.midpointTo ⟨0, -180⟩ ⟨0, -180⟩).lon = -180 := by
    simp only [LatLon.midpointTo, show ((-180 : ℝ) - -180) = 0 by norm_num,
      h0, hneg, Real.cos_zero, Real.sin_zero, mul_zero, mul_one]
    rw [atan2_zero_of_nonneg _ (by norm_num), add_zero, toDegrees_neg_pi,
      normLon_neg180]
  rw [hlon]
  simp

/-- Evaluation fact: `toRadians 0 = 0`. -/
lemma toRadians_zero : toRadians (0 : ℝ) = 0 := by
  norm_num [toRadians]

/-- Evaluation fact: `toRadians (-90) = -(π/2)`. -/
lemma toRadians_neg90 : toRadians (-90 : ℝ) = -(Real.pi / 2) := by
  unfold toRadians
  ring

/-- Evaluation fact: `toRadians 90 = π/2`. -/
lemma toRadians_90 : toRadians (90 : ℝ) = Real.pi / 2 := by
  unfold toRadians
  ring

/-- Evaluation fact: `jsMod (-π) (2π) = -π` (the JavaScript remainder keeps the dividend's
sign, truncating toward zero). -/
lemma jsMod_neg_pi : jsMod (-Real.pi) (2 * Real.pi) = -Real.pi := by
  have hπ := Real.pi_pos
  unfold jsMod jsTrunc
  have hdiv : -Real.pi / (2 * Real.pi) = -(1/2) := by
    rw [div_eq_iff (by positivity)]
    ring
  rw [hdiv, if_neg (by norm_num)]
  have hceil : ⌈(-(1/2) : ℝ)⌉ = 0 := by
    rw [Int.ceil_eq_zero_iff]
    constructor <;> norm_num
  rw [hceil]
  push_cast
  ring

/-- The NaN-tracking `δ12` of `intersection` at the two poles is `π`. -/
lemma inδ12Nan_poles : inδ12Nan ⟨-90, 0⟩ ⟨90, 0⟩ = some Real.pi := by
  have e2 : (Real.pi / 2 - -(Real.pi / 2)) / 2 = Real.pi / 2 := by ring
  have e5 : (2 : ℝ) * (Real.pi / 2) = Real.pi := by ring
  simp [inδ12Nan, toRadians_neg90, toRadians_90, sub_self, zero_div,
    nSin, nCos, nAdd, nMul, Real.sin_zero, Real.cos_neg, Real.cos_pi_div_two,
    e2, Real.sin_pi_div_two, nSqrt, nAsin, Real.sqrt_one, Real.arcsin_one,
    e5]
  norm_num [Real.arcsin_one, e5]

/-- At the two poles, the argument of the *first* arc cosine of
`intersection` is the undefined value (`0 / 0`). -/
lemma inθaArgNan_poles : inθaArgNan ⟨-90, 0⟩ ⟨90, 0⟩ = none := by
  simp only [inθaArgNan, inδ12Nan_poles, toRadians_neg90, toRadians_90,
    nSub, nMul, nCos, nSin, nDiv, Real.cos_pi, Real.sin_pi, Real.sin_neg,
    Real.sin_pi_div_two, Real.cos_neg, Real.cos_pi_div_two, mul_zero,
    zero_mul]
  norm_num

/-- At the two poles, the argument of the *second* arc cosine of
`intersection` is the undefined value (`0 / 0`). -/
lemma inθbArgNan_poles : inθbArgNan ⟨-90, 0⟩ ⟨90, 0⟩ = none := by
  simp only [inθbArgNan, inδ12Nan_poles, toRadians_neg90, toRadians_90,
    nSub, nMul, nCos, nSin, nDiv, Real.cos_pi, Real.sin_pi, Real.sin_neg,
    Real.sin_pi_div_two, Real.cos_neg, Real.cos_pi_div_two, mul_zero,
    zero_mul]
  norm_num

/-- Comparison `nLt` with an undefined left operand is false (NaN comparisons are
false in JavaScript). -/
lemma not_nLt_none (b : JsNum) : ¬ nLt none b := by
  cases b <;> simp [nLt]

/-- Evaluation of the NaN-tracking `intersection` at the two poles: the
undefined `θb` propagates into both coordinates of the returned point. -/
lemma intersectionNan_poles_eval :
    intersectionNan ⟨-90, 0⟩ 0 ⟨90, 0⟩ 0 = some (none, none) := by
  have hθa : inθaNan ⟨-90, 0⟩ ⟨90, 0⟩ = some 0 := by
    simp [inθaNan, inθaArgNan_poles, nAcos]
  have hθb : inθbNan ⟨-90, 0⟩ ⟨90, 0⟩ = none := by
    simp [inθbNan, inθbArgNan_poles, nAcos]
  have hsin0 : Real.sin (toRadians (0 : ℝ) - toRadians (0 : ℝ)) = 0 := by
    simp [sub_self]
  have e3 : -(2 * Real.pi) + Real.pi = -Real.pi := by ring
  have e3a : (0 : ℝ) - 2 * Real.pi + Real.pi = -Real.pi := by ring
  have e4 : -Real.pi - Real.pi = -(2 * Real.pi) := by ring
  have h2π : (2 : ℝ) * Real.pi ≠ 0 := by positivity
  simp [intersectionNan, inδ12Nan_poles, hθa, hθb, hsin0, toRadians_zero,
    lt_self_iff_false, nEq, nSub, nAdd, nMul, nSin, nCos, nAcos, nAsin,
    nAtan2, nNeg, nToDegrees, nModJs, Real.pi_ne_zero, h2π, e3, e3a, e4,
    jsMod_neg_pi, Real.sin_neg, Real.sin_two_pi, sub_zero, zero_sub,
    not_nLt_none]

/-- Claim C4 (amended) — in `intersection` the `isNaN` guard protects only
the first arc cosine `θa`: a `NaN` there is replaced by the angle `0`, and
the guarded `θa` is never the undefined value; the second arc cosine `θb`
has no guard, and at a concrete input whose `θb` argument is `0 / 0` the
undefined value propagates into both coordinates of the returned point. -/
theorem intersection_acos_guard_theta_a_only (p1 p2 : LatLon) :
    (nAcos (inθaArgNan p1 p2) = none → inθaNan p1 p2 = some 0)
    ∧ inθaNan p1 p2 ≠ none
    ∧ intersectionNan ⟨-90, 0⟩ 0 ⟨90, 0⟩ 0 = some (none, none) := by
  refine ⟨fun h => ?_, ?_, intersectionNan_poles_eval⟩
  · simp only [inθaNan]
    rw [if_pos h]
  · simp only [inθaNan]
    split_ifs with h
    · simp
    · exact h

/-- Witness for C4 (amended) at a concrete input: at the poles the `θa`
arc cosine is `NaN` and the guard replaces it by `0`. -/
theorem intersection_acos_guard_theta_a_only_witness :
    inθaNan ⟨-90, 0⟩ ⟨90, 0⟩ = some 0 :=
  (intersection_acos_guard_theta_a_only ⟨-90, 0⟩ ⟨90, 0⟩).1
    (by simp [inθaArgNan_poles, nAcos])

/-- Counterexample to C4 as stated — at start points `(-90°, 0°)` and
`(90°, 0°)` (bearings `0`), the second arc cosine's argument is the
undefined `0 / 0`, no guard replaces the resulting angle by `0`, and the
undefined value propagates into both coordinates of the returned point. -/
theorem intersection_thetaB_nan_propagates :
    inθbArgNan ⟨-90, 0⟩ ⟨90, 0⟩ = none
    ∧ inθbNan ⟨-90, 0⟩ ⟨90, 0⟩ = none
    ∧ intersectionNan ⟨-90, 0⟩ 0 ⟨90, 0⟩ 0 = some (none, none) :=
  ⟨inθbArgNan_poles, by simp [inθbNan, inθbArgNan_poles, nAcos],
   intersectionNan_poles_eval⟩

/-- Claim C5 — `distanceTo` is symmetric in its two endpoints: for valid
points `a`, `b` and any positive radius,
`distanceTo a b radius = distanceTo b a radius`. -/
theorem distanceTo_symm (a b : LatLon) (radius : ℝ)
    (ha : |a.lat| ≤ 90) (hb : |b.lat| ≤ 90) (hr : 0 < radius) :
    a.distanceTo b radius = b.distanceTo a radius := by
  have h1 : Real.sin ((toRadians a.lat - toRadians b.lat) / 2)
      = -Real.sin ((toRadians b.lat - toRadians a.lat) / 2) := by
    rw [show (toRadians a.lat - toRadians b.lat) / 2
        = -((toRadians b.lat - toRadians a.lat) / 2) by ring, Real.sin_neg]
  have h2 : Real.sin ((toRadians a.lon - toRadians b.lon) / 2)
      = -Real.sin ((toRadians b.lon - toRadians a.lon) / 2) := by
    rw [show (toRadians a.lon - toRadians b.lon) / 2
        = -((toRadians b.lon - toRadians a.lon) / 2) by ring, Real.sin_neg]
  simp only [LatLon.distanceTo]
  rw [h1, h2]
  ring_nf

/-- Witness for C5 at a concrete input. -/
theorem distanceTo_symm_witness :
    LatLon.distanceTo ⟨10, 20⟩ ⟨30, 40⟩ 6371000
      = LatLon.distanceTo ⟨30, 40⟩ ⟨10, 20⟩ 6371000 :=
  distanceTo_symm ⟨10, 20⟩ ⟨30, 40⟩ 6371000 (by norm_num) (by norm_num)
    (by norm_num)

end
